import Mathlib

/-!
Shallow embedding of the ZTOE outage-schedule core: the state decoder and
per-group schedule assembly from `src/ztoe_parser copy.py`, the severity
ranking and snapshot differ shared by the two renderers, and the two
split-cell boundary resolvers from `src/gener_im_1_G.py` and
`src/gener_im_full.py`.
-/

namespace ZTOE

/-- Abstract display colors. Both renderer files bind the same RGB values:
`AVAILABLE_COLOR = (255,255,255)`, `OUTAGE_COLOR = (147,170,210)`,
`POSSIBLE_COLOR = (255,220,115)`. -/
inductive Color where
  | AVAILABLE
  | OUTAGE
  | POSSIBLE
deriving DecidableEq, Repr

open Color

/-- Python `x in [...]` where `x` is a string-or-None: `None in l` is `False`
for a list of strings. -/
def optMem (o : Option String) (l : List String) : Bool :=
  match o with
  | none => false
  | some s => decide (s ∈ l)

/-- `calculate_outage_severity` from `gener_im_1_G.py` lines 125-136 and
`gener_im_full.py` lines 107-121 (identical bodies): a dict lookup with
default 0. -/
def calculate_outage_severity (state : String) : Nat :=
  if state = "yes" then 0
  else if state = "maybe" then 2
  else if state = "mfirst" then 2
  else if state = "msecond" then 2
  else if state = "first" then 3
  else if state = "second" then 3
  else if state = "no" then 4
  else 0

/-- `compare_states` from `gener_im_1_G.py` lines 138-147 and
`gener_im_full.py` lines 123-138 (identical bodies). -/
def compare_states (old_state new_state : String) : String :=
  let old_severity := calculate_outage_severity old_state
  let new_severity := calculate_outage_severity new_state
  if new_severity > old_severity then "worse"
  else if new_severity < old_severity then "better"
  else "same"

/-- The color pair computed by `ImageRenderer._draw_split_cell`
(`gener_im_1_G.py` lines 336-379) before any drawing: the cell's own state
and the raw states of the neighboring hours (`None` when the neighbor hour
is absent) decide the left/right fill colors. -/
def splitCellColors_1G (state : String) (prev_state next_state : Option String) :
    Color × Color :=
  if state = "yes" then (AVAILABLE, AVAILABLE)
  else if state = "no" then (OUTAGE, OUTAGE)
  else if state = "maybe" then (POSSIBLE, POSSIBLE)
  else if state = "first" then
    (OUTAGE,
     if optMem next_state ["no", "first", "maybe"] then OUTAGE else AVAILABLE)
  else if state = "second" then
    (if optMem prev_state ["no", "second", "maybe"] then OUTAGE else AVAILABLE,
     OUTAGE)
  else if state = "mfirst" then
    (POSSIBLE,
     match next_state with
     | some ns => if decide (ns ∈ ["no", "first"]) then OUTAGE else AVAILABLE
     | none =>
         if optMem prev_state ["no", "first", "second", "maybe", "mfirst", "msecond"]
         then AVAILABLE else OUTAGE)
  else if state = "msecond" then
    (match prev_state with
     | some ps => if decide (ps ∈ ["no", "second"]) then OUTAGE else AVAILABLE
     | none =>
         if optMem next_state ["no", "first", "second", "maybe", "mfirst", "msecond"]
         then AVAILABLE else OUTAGE,
     POSSIBLE)
  else (AVAILABLE, AVAILABLE)

/-- The color pair computed by the free function `draw_split_cell`
(`gener_im_full.py` lines 277-324) before any drawing. The Python source of
this branch cascade is character-for-character the same as the one in
`gener_im_1_G.py`. -/
def splitCellColors_full (state : String) (prev_state next_state : Option String) :
    Color × Color :=
  if state = "yes" then (AVAILABLE, AVAILABLE)
  else if state = "no" then (OUTAGE, OUTAGE)
  else if state = "maybe" then (POSSIBLE, POSSIBLE)
  else if state = "first" then
    (OUTAGE,
     if optMem next_state ["no", "first", "maybe"] then OUTAGE else AVAILABLE)
  else if state = "second" then
    (if optMem prev_state ["no", "second", "maybe"] then OUTAGE else AVAILABLE,
     OUTAGE)
  else if state = "mfirst" then
    (POSSIBLE,
     match next_state with
     | some ns => if decide (ns ∈ ["no", "first"]) then OUTAGE else AVAILABLE
     | none =>
         if optMem prev_state ["no", "first", "second", "maybe", "mfirst", "msecond"]
         then AVAILABLE else OUTAGE)
  else if state = "msecond" then
    (match prev_state with
     | some ps => if decide (ps ∈ ["no", "second"]) then OUTAGE else AVAILABLE
     | none =>
         if optMem next_state ["no", "first", "second", "maybe", "mfirst", "msecond"]
         then AVAILABLE else OUTAGE,
     POSSIBLE)
  else (AVAILABLE, AVAILABLE)

/-- The per-hour change tag computed in `ImageRenderer._draw_data_cells`
(`gener_im_1_G.py` lines 422-435): a change is classified only when
`prev_gp_hours` is truthy (non-empty) AND the hour key is present in it
(`if prev_gp_hours and h_key in prev_gp_hours`); the group's previous hour
map is modelled as an association list. -/
def changeType_1G (prev_gp_hours : List (String × String)) (h_key state : String) :
    Option String :=
  if prev_gp_hours = [] then none
  else
    match prev_gp_hours.lookup h_key with
    | none => none
    | some old_state =>
        let comparison := compare_states old_state state
        if comparison = "worse" then some "worse"
        else if comparison = "better" then some "better"
        else none

/-- The per-hour change tag computed in `render_single_date`
(`gener_im_full.py` lines 459-469): when `prev_gp_hours` is truthy
(non-empty), the old state is `prev_gp_hours.get(h_key, "yes")` — a missing
hour key is DEFAULTED to yes and then compared. -/
def changeType_full (prev_gp_hours : List (String × String)) (h_key state : String) :
    Option String :=
  if prev_gp_hours = [] then none
  else
    let old_state := (prev_gp_hours.lookup h_key).getD "yes"
    let comparison := compare_states old_state state
    if comparison = "worse" then some "worse"
    else if comparison = "better" then some "better"
    else none

/-- `is_blackout_color` from `ztoe_parser copy.py` lines 70-84, over the
hex-digit values of the (lower-cased) color string: length must be 6, then
`r = int(c[0:2],16)`, `g = int(c[2:4],16)`, `b = int(c[4:6],16)` and the
result is `r > 200 and g < 80 and b < 80`. -/
def is_blackout_color (digits : List Nat) : Bool :=
  if digits.length ≠ 6 then false
  else
    let r := 16 * digits.getD 0 0 + digits.getD 1 0
    let g := 16 * digits.getD 2 0 + digits.getD 3 0
    let b := 16 * digits.getD 4 0 + digits.getD 5 0
    decide (r > 200 ∧ g < 80 ∧ b < 80)

/-- The hour decode step of `parse_table` (`ztoe_parser copy.py` lines
166-175): `a`/`b` are the "no"/"yes" strings of the two half-hour slots of
one hour. -/
def decode_hour (a b : String) : String :=
  if a = "no" ∧ b = "no" then "no"
  else if a = "no" then "first"
  else if b = "no" then "second"
  else "yes"

/-- The `half` list built in `parse_table` (`ztoe_parser copy.py` lines
155-160): each slot color is classified by `is_blackout_color`, giving the
boolean outage flag modelled here, and recorded as "no"/"yes". -/
def halfList (cells : List Bool) : List String :=
  cells.map (fun c => if c then "no" else "yes")

/-- The final state of one hour of one group after the per-group body of
`parse_table` (`ztoe_parser copy.py` lines 133-177): every hour starts at
the all-yes default; when `len(cells) < 48` the loop `continue`s and the
default survives; otherwise hour `h` (1-based) is decoded from slots
`(h-1)*2` and `(h-1)*2 + 1` of the `half` list. -/
def parse_group_hour (cells : List Bool) (hour : Nat) : String :=
  if cells.length < 48 then "yes"
  else
    let half := halfList cells
    let idx := (hour - 1) * 2
    let a := half.getD idx "yes"
    let b := half.getD (idx + 1) "yes"
    decode_hour a b

/-- Scenario A's raw input: 48 half-hour flags alternating outage/available,
`[True, False] * 24`. -/
def altFlags : List Bool :=
  (List.replicate 24 [true, false]).flatten

/-- The seven-symbol hour-state alphabet. -/
def stateAlphabet : List String :=
  ["yes", "no", "maybe", "first", "second", "mfirst", "msecond"]

theorem optMem3_iff (o : Option String) (a b c : String) :
    optMem o [a, b, c] = true ↔ o = some a ∨ o = some b ∨ o = some c := by
  cases o <;> simp [optMem]

theorem optMem6_iff (o : Option String) (a b c d e f : String) :
    optMem o [a, b, c, d, e, f] = true ↔
      o = some a ∨ o = some b ∨ o = some c ∨ o = some d ∨ o = some e ∨ o = some f := by
  cases o <;> simp [optMem]

theorem mem2_iff (s a b : String) :
    decide (s ∈ [a, b]) = true ↔ s = a ∨ s = b := by
  simp

theorem ite_color_out_iff (c : Bool) (P : Prop) (h : c = true ↔ P) :
    ((if c then Color.OUTAGE else Color.AVAILABLE) = Color.OUTAGE ↔ P) ∧
    ((if c then Color.OUTAGE else Color.AVAILABLE) = Color.AVAILABLE ↔ ¬P) := by
  cases c <;> simp_all

theorem ite_color_av_iff (c : Bool) (P : Prop) (h : c = true ↔ P) :
    ((if c then Color.AVAILABLE else Color.OUTAGE) = Color.AVAILABLE ↔ P) ∧
    ((if c then Color.AVAILABLE else Color.OUTAGE) = Color.OUTAGE ↔ ¬P) := by
  cases c <;> simp_all

/-- C1: the claim that neither renderer ever classifies a change against a
defaulted old value is FALSE for the full-grid renderer: with previous group
data `{"1": "yes"}` the hour key "5" is absent, yet the current state "no"
is compared against the defaulted old value "yes" and tagged worse. -/
theorem C1_differ_default_counterexample :
    List.lookup "5" [("1", "yes")] = (none : Option String) ∧
    changeType_full [("1", "yes")] "5" "no" = some "worse" := by
  decide

/-- C1 (amended): the per-group renderer classifies no change whenever the
previous group map lacks the hour key; the full-grid renderer classifies no
change only when the previous group map is entirely empty — when it is
non-empty but lacks the hour key, the old state defaults to yes and the
comparison runs against that default. -/
theorem C1_differ_no_baseline_amended :
    (∀ (prev : List (String × String)) (h_key st : String),
        prev.lookup h_key = none → changeType_1G prev h_key st = none) ∧
    (∀ (h_key st : String), changeType_full [] h_key st = none) ∧
    (∀ (prev : List (String × String)) (h_key st : String),
        prev ≠ [] → prev.lookup h_key = none →
        changeType_full prev h_key st =
          (if compare_states "yes" st = "worse" then some "worse"
           else if compare_states "yes" st = "better" then some "better"
           else none)) := by
  refine ⟨?_, ?_, ?_⟩
  · intro prev h_key st hl
    unfold changeType_1G
    split_ifs with h
    · rfl
    · rw [hl]
  · intro h_key st
    rfl
  · intro prev h_key st hne hl
    unfold changeType_full
    rw [if_neg hne, hl]
    rfl

/-- C1 witness: the amended statements at concrete inputs. -/
theorem C1_differ_no_baseline_amended_witness :
    changeType_1G [("1", "yes")] "5" "no" = none ∧
    changeType_full [] "5" "no" = none ∧
    changeType_full [("1", "yes")] "5" "no" =
      (if compare_states "yes" "no" = "worse" then some "worse"
       else if compare_states "yes" "no" = "better" then some "better"
       else none) :=
  ⟨C1_differ_no_baseline_amended.1 [("1", "yes")] "5" "no" (by decide),
   C1_differ_no_baseline_amended.2.1 "5" "no",
   C1_differ_no_baseline_amended.2.2 [("1", "yes")] "5" "no" (by decide) (by decide)⟩

/-- C2: in both renderers a first cell has left half OUTAGE and right half
OUTAGE exactly when the next hour's state is no, first or maybe (else
AVAILABLE); a second cell has right half OUTAGE and left half OUTAGE exactly
when the previous hour's state is no, second or maybe (else AVAILABLE). -/
theorem C2_first_second_boundary :
    ∀ (prev next : Option String),
      ((splitCellColors_1G "first" prev next).1 = Color.OUTAGE ∧
       ((splitCellColors_1G "first" prev next).2 = Color.OUTAGE ↔
           next = some "no" ∨ next = some "first" ∨ next = some "maybe") ∧
       ((splitCellColors_1G "first" prev next).2 = Color.AVAILABLE ↔
           ¬(next = some "no" ∨ next = some "first" ∨ next = some "maybe"))) ∧
      ((splitCellColors_1G "second" prev next).2 = Color.OUTAGE ∧
       ((splitCellColors_1G "second" prev next).1 = Color.OUTAGE ↔
           prev = some "no" ∨ prev = some "second" ∨ prev = some "maybe") ∧
       ((splitCellColors_1G "second" prev next).1 = Color.AVAILABLE ↔
           ¬(prev = some "no" ∨ prev = some "second" ∨ prev = some "maybe"))) ∧
      splitCellColors_full "first" prev next = splitCellColors_1G "first" prev next ∧
      splitCellColors_full "second" prev next = splitCellColors_1G "second" prev next := by
  intro prev next
  have hf := ite_color_out_iff _ _ (optMem3_iff next "no" "first" "maybe")
  have hs := ite_color_out_iff _ _ (optMem3_iff prev "no" "second" "maybe")
  exact ⟨⟨rfl, hf.1, hf.2⟩, ⟨rfl, hs.1, hs.2⟩, rfl, rfl⟩

/-- C3: a mfirst cell has left half POSSIBLE; with a next-hour state present
the right half is OUTAGE exactly when that state is no or first (else
AVAILABLE); with the next hour absent the consulted neighbor inverts: the
right half is AVAILABLE exactly when the previous hour's state is one of the
six outage-continuing symbols (no/first/second/maybe/mfirst/msecond), else
OUTAGE — in particular mfirst with next absent and prev no gives right half
AVAILABLE; msecond is the mirror image. -/
theorem C3_mfirst_msecond_boundary :
    ∀ (prev next : Option String),
      ((splitCellColors_1G "mfirst" prev next).1 = Color.POSSIBLE ∧
       (splitCellColors_1G "msecond" prev next).2 = Color.POSSIBLE) ∧
      (∀ ns : String,
         ((splitCellColors_1G "mfirst" prev (some ns)).2 = Color.OUTAGE ↔
             ns = "no" ∨ ns = "first") ∧
         ((splitCellColors_1G "mfirst" prev (some ns)).2 = Color.AVAILABLE ↔
             ¬(ns = "no" ∨ ns = "first"))) ∧
      (((splitCellColors_1G "mfirst" prev none).2 = Color.AVAILABLE ↔
          prev = some "no" ∨ prev = some "first" ∨ prev = some "second" ∨
          prev = some "maybe" ∨ prev = some "mfirst" ∨ prev = some "msecond") ∧
       ((splitCellColors_1G "mfirst" prev none).2 = Color.OUTAGE ↔
          ¬(prev = some "no" ∨ prev = some "first" ∨ prev = some "second" ∨
            prev = some "maybe" ∨ prev = some "mfirst" ∨ prev = some "msecond"))) ∧
      (∀ ps : String,
         ((splitCellColors_1G "msecond" (some ps) next).1 = Color.OUTAGE ↔
             ps = "no" ∨ ps = "second") ∧
         ((splitCellColors_1G "msecond" (some ps) next).1 = Color.AVAILABLE ↔
             ¬(ps = "no" ∨ ps = "second"))) ∧
      (((splitCellColors_1G "msecond" none next).1 = Color.AVAILABLE ↔
          next = some "no" ∨ next = some "first" ∨ next = some "second" ∨
          next = some "maybe" ∨ next = some "mfirst" ∨ next = some "msecond") ∧
       ((splitCellColors_1G "msecond" none next).1 = Color.OUTAGE ↔
          ¬(next = some "no" ∨ next = some "first" ∨ next = some "second" ∨
            next = some "maybe" ∨ next = some "mfirst" ∨ next = some "msecond"))) ∧
      splitCellColors_1G "mfirst" (some "no") none = (Color.POSSIBLE, Color.AVAILABLE) ∧
      splitCellColors_full "mfirst" prev next = splitCellColors_1G "mfirst" prev next ∧
      splitCellColors_full "msecond" prev next = splitCellColors_1G "msecond" prev next := by
  intro prev next
  have hedge := ite_color_av_iff _ _
    (optMem6_iff prev "no" "first" "second" "maybe" "mfirst" "msecond")
  have hedge2 := ite_color_av_iff _ _
    (optMem6_iff next "no" "first" "second" "maybe" "mfirst" "msecond")
  refine ⟨⟨rfl, rfl⟩, ?_, ⟨hedge.1, hedge.2⟩, ?_, ⟨hedge2.1, hedge2.2⟩, by decide, rfl, rfl⟩
  · intro ns
    have h := ite_color_out_iff _ _ (mem2_iff ns "no" "first")
    exact ⟨h.1, h.2⟩
  · intro ps
    have h := ite_color_out_iff _ _ (mem2_iff ps "no" "second")
    exact ⟨h.1, h.2⟩

/-- C4: both boundary resolvers are total and fail-open — on every state
string and every optional pair of neighbor states they return a defined pair
of colors drawn from AVAILABLE/OUTAGE/POSSIBLE, and any state outside the
seven-symbol alphabet yields both halves AVAILABLE. -/
theorem C4_total_failopen :
    ∀ (st : String) (prev next : Option String),
      ((splitCellColors_1G st prev next).1 = Color.AVAILABLE ∨
       (splitCellColors_1G st prev next).1 = Color.OUTAGE ∨
       (splitCellColors_1G st prev next).1 = Color.POSSIBLE) ∧
      ((splitCellColors_1G st prev next).2 = Color.AVAILABLE ∨
       (splitCellColors_1G st prev next).2 = Color.OUTAGE ∨
       (splitCellColors_1G st prev next).2 = Color.POSSIBLE) ∧
      ((splitCellColors_full st prev next).1 = Color.AVAILABLE ∨
       (splitCellColors_full st prev next).1 = Color.OUTAGE ∨
       (splitCellColors_full st prev next).1 = Color.POSSIBLE) ∧
      ((splitCellColors_full st prev next).2 = Color.AVAILABLE ∨
       (splitCellColors_full st prev next).2 = Color.OUTAGE ∨
       (splitCellColors_full st prev next).2 = Color.POSSIBLE) ∧
      (st ∉ stateAlphabet →
        splitCellColors_1G st prev next = (Color.AVAILABLE, Color.AVAILABLE) ∧
        splitCellColors_full st prev next = (Color.AVAILABLE, Color.AVAILABLE)) := by
  intro st prev next
  refine ⟨?_, ?_, ?_, ?_, ?_⟩
  · cases (splitCellColors_1G st prev next).1 <;> simp
  · cases (splitCellColors_1G st prev next).2 <;> simp
  · cases (splitCellColors_full st prev next).1 <;> simp
  · cases (splitCellColors_full st prev next).2 <;> simp
  · intro hst
    simp [stateAlphabet] at hst
    obtain ⟨h1, h2, h3, h4, h5, h6, h7⟩ := hst
    constructor <;>
      simp [splitCellColors_1G, splitCellColors_full, h1, h2, h3, h4, h5, h6, h7]

/-- C4 witness: the fail-open default at the unknown state "zzz" with both
neighbors absent. -/
theorem C4_total_failopen_witness :
    splitCellColors_1G "zzz" none none = (Color.AVAILABLE, Color.AVAILABLE) ∧
    splitCellColors_full "zzz" none none = (Color.AVAILABLE, Color.AVAILABLE) :=
  (C4_total_failopen "zzz" none none).2.2.2.2 (by decide)

/-- C5: the claim that a sample count different from 48 always leaves the
group at the all-yes default is FALSE: 49 all-outage flags are not 48 flags,
yet hour 1 decodes to no (the guard in `parse_table` is `len(cells) < 48`,
not a strict equality check). -/
theorem C5_sample_count_counterexample :
    (List.replicate 49 true).length ≠ 48 ∧
    parse_group_hour (List.replicate 49 true) 1 = "no" := by
  decide

/-- C5 (amended): a group whose raw sample sequence has FEWER than 48 flags
is left at the all-yes default for every hour; with 48 or more flags each
hour is decoded from the first 48 slots (extra flags beyond slot 48 are
never consulted for hours 1..24). -/
theorem C5_sample_count_amended :
    (∀ (cells : List Bool) (hour : Nat),
        cells.length < 48 → parse_group_hour cells hour = "yes") ∧
    (∀ (cells : List Bool) (hour : Nat),
        48 ≤ cells.length →
        parse_group_hour cells hour =
          decode_hour ((halfList cells).getD ((hour - 1) * 2) "yes")
                      ((halfList cells).getD ((hour - 1) * 2 + 1) "yes")) := by
  constructor
  · intro cells hour hlen
    unfold parse_group_hour
    rw [if_pos hlen]
  · intro cells hour hlen
    unfold parse_group_hour
    rw [if_neg (by omega)]

/-- C5 witness: the amended statements at the empty input and at 49
all-outage flags. -/
theorem C5_sample_count_amended_witness :
    parse_group_hour [] 1 = "yes" ∧
    parse_group_hour (List.replicate 49 true) 2 =
      decode_hour ((halfList (List.replicate 49 true)).getD ((2 - 1) * 2) "yes")
                  ((halfList (List.replicate 49 true)).getD ((2 - 1) * 2 + 1) "yes") :=
  ⟨C5_sample_count_amended.1 [] 1 (by decide),
   C5_sample_count_amended.2 (List.replicate 49 true) 2 (by decide)⟩

/-- C10: the split-cell color logic of the per-group renderer and of the
full-grid renderer are extensionally equal on every input. -/
theorem C10_renderer_equivalence :
    ∀ (st : String) (prev next : Option String),
      splitCellColors_1G st prev next = splitCellColors_full st prev next :=
  fun _ _ _ => rfl

/-- C6: the hour decoder maps both-outage to no, first-half-only to first,
second-half-only to second, neither to yes; its output is always one of
those four symbols (never maybe/mfirst/msecond); and the 48 alternating
flags `[True, False] * 24` decode to first for all 24 hours. -/
theorem C6_decoder_cases :
    (decode_hour "no" "no" = "no" ∧ decode_hour "no" "yes" = "first" ∧
     decode_hour "yes" "no" = "second" ∧ decode_hour "yes" "yes" = "yes") ∧
    (∀ a b : String, decode_hour a b ∈ (["no", "first", "second", "yes"] : List String)) ∧
    (∀ h : Nat, h < 24 → parse_group_hour altFlags (h + 1) = "first") := by
  refine ⟨by decide, ?_, by decide⟩
  intro a b
  unfold decode_hour
  split_ifs <;> simp

/-- C6 witness: the decoder cases at concrete inputs and scenario A at
hour 1. -/
theorem C6_decoder_cases_witness :
    parse_group_hour altFlags (0 + 1) = "first" :=
  C6_decoder_cases.2.2 0 (by decide)

/-- C7: the severity table maps yes to 0, maybe/mfirst/msecond to 2,
first/second to 3, no to 4, and every string outside the seven-symbol
alphabet to 0; the resulting strict ordering
no > first = second > maybe = mfirst = msecond > yes holds. -/
theorem C7_severity_table :
    (calculate_outage_severity "yes" = 0 ∧
     calculate_outage_severity "maybe" = 2 ∧
     calculate_outage_severity "mfirst" = 2 ∧
     calculate_outage_severity "msecond" = 2 ∧
     calculate_outage_severity "first" = 3 ∧
     calculate_outage_severity "second" = 3 ∧
     calculate_outage_severity "no" = 4) ∧
    (∀ st : String, st ∉ stateAlphabet → calculate_outage_severity st = 0) ∧
    (calculate_outage_severity "no" > calculate_outage_severity "first" ∧
     calculate_outage_severity "first" = calculate_outage_severity "second" ∧
     calculate_outage_severity "second" > calculate_outage_severity "maybe" ∧
     calculate_outage_severity "maybe" = calculate_outage_severity "mfirst" ∧
     calculate_outage_severity "mfirst" = calculate_outage_severity "msecond" ∧
     calculate_outage_severity "msecond" > calculate_outage_severity "yes") := by
  refine ⟨by decide, ?_, by decide⟩
  intro st hst
  simp [stateAlphabet] at hst
  obtain ⟨h1, h2, h3, h4, h5, h6, h7⟩ := hst
  simp [calculate_outage_severity, h1, h2, h3, h4, h5, h6, h7]

/-- C7 witness: the unknown-symbol branch at the concrete string "zzz". -/
theorem C7_severity_table_witness :
    calculate_outage_severity "zzz" = 0 :=
  C7_severity_table.2.1 "zzz" (by decide)

/-- C8: for every pair of states, the differ returns worse exactly when the
new severity exceeds the old, better exactly when it is below, and same
exactly when they are equal; in particular old yes, new no is worse with
severity delta 4. -/
theorem C8_compare_iff_severity :
    (∀ old_state new_state : String,
       (compare_states old_state new_state = "worse" ↔
          calculate_outage_severity new_state > calculate_outage_severity old_state) ∧
       (compare_states old_state new_state = "better" ↔
          calculate_outage_severity new_state < calculate_outage_severity old_state) ∧
       (compare_states old_state new_state = "same" ↔
          calculate_outage_severity new_state = calculate_outage_severity old_state)) ∧
    (compare_states "yes" "no" = "worse" ∧
     calculate_outage_severity "no" - calculate_outage_severity "yes" = 4) := by
  refine ⟨?_, by decide⟩
  intro old_state new_state
  simp only [compare_states]
  split_ifs with h1 h2 <;> refine ⟨?_, ?_, ?_⟩ <;> simp <;> omega

/-- C9: a 24-bit RGB triple (given as its six hex digits) is classified as a
blackout flag iff red exceeds 200 and green and blue are both below 80; any
digit string whose length is not 6 is classified available. -/
theorem C9_blackout_threshold :
    (∀ r g b : Nat, r < 256 → g < 256 → b < 256 →
       (is_blackout_color [r / 16, r % 16, g / 16, g % 16, b / 16, b % 16] = true ↔
          (200 < r ∧ g < 80 ∧ b < 80))) ∧
    (∀ digits : List Nat, digits.length ≠ 6 → is_blackout_color digits = false) := by
  constructor
  · intro r g b hr hg hb
    simp [is_blackout_color, List.getD]
    omega
  · intro digits hlen
    simp [is_blackout_color, hlen]

/-- C9 witness: the threshold at pure red (255,0,0) and the length guard at
a 3-digit input. -/
theorem C9_blackout_threshold_witness :
    (is_blackout_color [255 / 16, 255 % 16, 0 / 16, 0 % 16, 0 / 16, 0 % 16] = true ↔
       (200 < 255 ∧ 0 < 80 ∧ 0 < 80)) ∧
    is_blackout_color [1, 2, 3] = false :=
  ⟨C9_blackout_threshold.1 255 0 0 (by decide) (by decide) (by decide),
   C9_blackout_threshold.2 [1, 2, 3] (by decide)⟩

end ZTOE
